import Mathlib

/-!
Shallow embedding of the Filecoin Pin storage provider
(`src/storage/filecoin_pin_provider.py`) from the
chaoschain-filecoin-pin-demo repository, together with theorems settling
the frozen claims about it.

Effects (temporary directory lifecycle, subprocess execution, HTTP gateway
requests, Python exceptions) are modelled explicitly: the behaviour of the
outside world is an input (`PutEnv`, a gateway response oracle), and the
filesystem/process effects a call performs are returned alongside the
result (`PutEffects`, the list of gateway URLs requested).
-/

/-- Values stored in the `metadata` dict of a `StorageResult` (the dict is
heterogeneous in Python: optional strings, a string, a tag mapping, a
boolean). -/
inductive MetaValue where
  | optStr (o : Option String)
  | str (s : String)
  | tags (t : List (String × String))
  | boolV (b : Bool)
  deriving DecidableEq, Repr

/-- Mirrors the `StorageResult` dataclass: container returned to the SDK
when storing content.  Field defaults follow the dataclass defaults. -/
structure StorageResult where
  success : Bool
  uri : String := ""
  hash : String := ""
  provider : String := ""
  cid : String := ""
  view_url : String := ""
  size : Nat := 0
  metadata : List (String × MetaValue) := []
  error : String := ""
  deriving DecidableEq, Repr

/-- Fixed configuration of `FilecoinPinStorageProvider`, set once at
construction (`__init__`). -/
structure Config where
  filecoin_pin_path : String
  auto_fund : Bool
  bare : Bool
  verbose : Bool
  private_key : Option String
  deriving DecidableEq, Repr

/-- Python truthiness of an `Optional[str]`: `None` and `""` are falsy. -/
def pyTruthy (o : Option String) : Bool :=
  !(o.getD "").isEmpty

/-- Tests whether `pat` is a prefix of the second list, returning the
remainder after the match. -/
def dropLit : List Char → List Char → Option (List Char)
  | [], rest => some rest
  | _ :: _, [] => none
  | p :: ps, c :: cs => if p = c then dropLit ps cs else none

/-- Python `s.startswith(pre)`. -/
def pyStartsWith (s pre : String) : Bool :=
  (dropLit pre.toList s.toList).isSome

/-- Python `s.strip()`: drop leading and trailing whitespace. -/
def pyStrip (s : String) : String :=
  String.mk
    (((s.toList.dropWhile Char.isWhitespace).reverse.dropWhile
        Char.isWhitespace).reverse)

/-- Worker for `pySplitOn`.  The fuel argument (at least the length of the
remaining text) makes the recursion structural so that concrete instances
evaluate inside the kernel; every step consumes at least one character. -/
def splitAux (sep : List Char) : Nat → List Char → List Char →
    List (List Char)
  | _, [], acc => [acc.reverse]
  | 0, cs, acc => [acc.reverse ++ cs]
  | fuel + 1, c :: cs, acc =>
    match dropLit sep (c :: cs) with
    | some rest => acc.reverse :: splitAux sep fuel rest []
    | none => splitAux sep fuel cs (c :: acc)

/-- Python `s.split(sep)` for a non-empty separator (the Lean model
returns `[s]` on an empty separator, a case the source never reaches):
non-overlapping occurrences scanned left to right. -/
def pySplitOn (s sep : String) : List String :=
  if sep.isEmpty then [s]
  else (splitAux sep.toList s.toList.length s.toList []).map String.mk

/-- Worker for `pyReplace`, fueled like `splitAux`. -/
def replaceAux (pat repl : List Char) : Nat → List Char → List Char
  | _, [] => []
  | 0, cs => cs
  | fuel + 1, c :: cs =>
    match dropLit pat (c :: cs) with
    | some rest => repl ++ replaceAux pat repl fuel rest
    | none => c :: replaceAux pat repl fuel cs

/-- Python `s.replace(pat, repl)` for a non-empty pattern: every
non-overlapping occurrence, scanned left to right, is replaced. -/
def pyReplace (s pat repl : String) : String :=
  if pat.isEmpty then s
  else String.mk (replaceAux pat.toList repl.toList s.toList.length s.toList)

/-- Mirrors `_filename_for_mime`: a user-friendly filename chosen from the
MIME type. -/
def filename_for_mime (mime : Option String) : String :=
  if mime = some "application/json" then "chaoschain_proof.json"
  else if pyTruthy mime && pyStartsWith (mime.getD "") "text/" then
    "chaoschain_payload.txt"
  else "chaoschain_payload.bin"

/-- Mirrors `_build_command`: the CLI argument vector used to store the
provided file. -/
def build_command (cfg : Config) (temp_path : String) : List String :=
  [cfg.filecoin_pin_path, "add", temp_path]
    ++ (if cfg.auto_fund then ["--auto-fund"] else [])
    ++ (if cfg.bare then ["--bare"] else [])
    ++ (if cfg.verbose then ["--verbose"] else [])
    ++ (if pyTruthy cfg.private_key then
          ["--private-key", cfg.private_key.getD ""] else [])

/-- Python `line.split(label)[1]` guarded by `label in line`: `some` of the
segment between the first and second occurrence of `label` when `label`
occurs in `line`, `none` otherwise. -/
def splitAfter (label line : String) : Option String :=
  match pySplitOn line label with
  | _ :: v :: _ => some v
  | _ => none

/-- Python substring containment `sub in s` (for non-empty `sub`). -/
def pyIn (sub s : String) : Bool :=
  decide (2 ≤ (pySplitOn s sub).length)

/-- Structured fields extracted by `_parse_cli_output`. -/
structure ParsedOutput where
  root_cid : Option String := none
  piece_cid : Option String := none
  data_set_id : Option String := none
  transaction_hash : Option String := none
  file_size_display : Option String := none
  deriving DecidableEq, Repr

/-- Literal the regex `IPFS content loaded \(([^)]+)\)` anchors on, as a
character list. -/
def loadedLit : List Char := "IPFS content loaded (".toList

/-- Attempts to match the rest of the regex at one position: a non-empty
run of non-`)` characters followed by `)`. -/
def matchCapture (rest : List Char) : Option String :=
  let run := rest.takeWhile (fun c => c ≠ ')')
  if run.isEmpty then none
  else match rest.drop run.length with
    | ')' :: _ => some (String.mk run)
    | _ => none

/-- Left-to-right scan of `re.search(r"IPFS content loaded \(([^)]+)\)", line)`:
first position where the literal is followed by a non-empty `)`-free run and
a closing `)`. -/
def reSearchLoaded : List Char → Option String
  | [] => none
  | c :: cs =>
    match dropLit loadedLit (c :: cs) with
    | some rest =>
      match matchCapture rest with
      | some v => some v
      | none => reSearchLoaded cs
    | none => reSearchLoaded cs

/-- One iteration of the `for line in output.splitlines()` loop of
`_parse_cli_output`, mirroring the `if`/`elif` chain (note the source's
hash label is the literal mojibake bytes `â”‚ Hash:`). -/
def updateLine (st : ParsedOutput) (line : String) : ParsedOutput :=
  match splitAfter "Root CID:" line with
  | some v => { st with root_cid := some (pyStrip v) }
  | none =>
    match splitAfter "Piece CID:" line with
    | some v => { st with piece_cid := some (pyStrip v) }
    | none =>
      match splitAfter "Data Set ID:" line with
      | some v => { st with data_set_id := some (pyStrip v) }
      | none =>
        if pyStartsWith (pyStrip line) "â”‚ Hash:" then
          { st with transaction_hash := (splitAfter "Hash:" line).map pyStrip }
        else if pyIn "IPFS content loaded (" line then
          match reSearchLoaded line.toList with
          | some v => { st with file_size_display := some v }
          | none => st
        else st

/-- Mirrors `_parse_cli_output`: fold the line handler over the output's
lines. -/
def parse_cli_output (output : String) : ParsedOutput :=
  (pySplitOn output "\n").foldl updateLine {}

/-- Behaviour of the one `subprocess.run` call inside `put`: it completes
with an exit code and captured output, raises `TimeoutExpired`, or raises
some other exception. -/
inductive SubprocBehavior where
  | completes (returncode : Int) (stdout stderr : String)
  | timesOut
  | raises (msg : String)
  deriving DecidableEq, Repr

/-- Environment of one `put` invocation: what `tempfile.mkdtemp`,
`Path.write_bytes` and `subprocess.run` do when reached.  `some msg` in an
error slot means that call raises an exception carrying `msg`. -/
structure PutEnv where
  tempDirPath : String
  mkdtempError : Option String := none
  writeError : Option String := none
  subproc : SubprocBehavior
  deriving DecidableEq, Repr

/-- Observable effects of one `put` invocation: whether a temporary
directory was created and whether it still exists when `put` returns,
which payload file was written with which bytes, and which command was
handed to `subprocess.run`. -/
structure PutEffects where
  tempDirCreated : Bool := false
  tempDirExistsAfter : Bool := false
  fileWritten : Option (String × List Nat) := none
  commandRun : Option (List String) := none
  deriving DecidableEq, Repr

/-- Mirrors `put`.  The body follows the source statement by statement:
the filename choice, `mkdtemp`, the payload write (before the inner
`try`), the inner `try`/`finally shutil.rmtree` around `subprocess.run`
and result construction, and the outer `except TimeoutExpired` /
`except Exception` handlers that turn exceptions into failure results.
`idempotency_key` is accepted and, as in the source, never used. -/
def put (cfg : Config) (blob : List Nat) (mime : Option String)
    (tags : Option (List (String × String))) (idempotency_key : Option String)
    (env : PutEnv) : StorageResult × PutEffects :=
  let payload_filename := filename_for_mime mime
  match env.mkdtempError with
  | some e =>
    ({ success := false, provider := "filecoin-pin",
       error := "Storage error: " ++ e }, {})
  | none =>
    let temp_dir := env.tempDirPath
    let temp_path := temp_dir ++ "/" ++ payload_filename
    match env.writeError with
    | some e =>
      ({ success := false, provider := "filecoin-pin",
         error := "Storage error: " ++ e },
       { tempDirCreated := true, tempDirExistsAfter := true })
    | none =>
      let command := build_command cfg temp_path
      let fx : PutEffects :=
        { tempDirCreated := true, tempDirExistsAfter := false,
          fileWritten := some (temp_path, blob), commandRun := some command }
      match env.subproc with
      | SubprocBehavior.timesOut =>
        ({ success := false, provider := "filecoin-pin",
           error := "filecoin-pin command timed out after 5 minutes" }, fx)
      | SubprocBehavior.raises e =>
        ({ success := false, provider := "filecoin-pin",
           error := "Storage error: " ++ e }, fx)
      | SubprocBehavior.completes rc stdout stderr =>
        if rc = 0 then
          let parsed := parse_cli_output stdout
          let root_cid := parsed.root_cid.getD ""
          if root_cid = "" then
            ({ success := false, provider := "filecoin-pin",
               error := "filecoin-pin completed without returning a Root CID" },
             fx)
          else
            let dweb_url :=
              "https://" ++ root_cid ++ ".ipfs.dweb.link/" ++ payload_filename
            ({ success := true,
               uri := "ipfs://" ++ root_cid,
               hash := root_cid,
               provider := "filecoin-pin",
               cid := root_cid,
               view_url := dweb_url,
               size := blob.length,
               metadata :=
                 [("piece_cid", MetaValue.optStr parsed.piece_cid),
                  ("data_set_id", MetaValue.optStr parsed.data_set_id),
                  ("transaction_hash", MetaValue.optStr parsed.transaction_hash),
                  ("file_size_display", MetaValue.optStr parsed.file_size_display),
                  ("mime_type", MetaValue.optStr mime),
                  ("tags", MetaValue.tags (tags.getD [])),
                  ("filecoin_pin", MetaValue.boolV true),
                  ("payload_filename", MetaValue.str payload_filename),
                  ("dweb_gateway_url", MetaValue.str dweb_url)],
               error := "" }, fx)
        else
          ({ success := false, provider := "filecoin-pin",
             error := if pyStrip stderr = "" then "filecoin-pin command failed"
                      else pyStrip stderr }, fx)

/-- Behaviour of one `requests.get(gateway_url, timeout=30)` call: an HTTP
response with a status, body and the two headers `get` reads, or a raised
transport-level exception. -/
inductive GwResponse where
  | http (status : Nat) (body : List Nat)
      (contentType contentLength : Option String)
  | exc (msg : String)
  deriving DecidableEq, Repr

/-- Metadata dict returned by `get` on success. -/
structure RetrMeta where
  contentType : Option String
  contentLength : Option String
  gateway : String
  deriving DecidableEq, Repr

/-- The fixed, ordered gateway URL list built inside `get` for a bare CID. -/
def gateways (cid : String) : List String :=
  ["https://ipfs.io/ipfs/" ++ cid,
   "https://gateway.pinata.cloud/ipfs/" ++ cid,
   "https://cloudflare-ipfs.com/ipfs/" ++ cid,
   "https://dweb.link/ipfs/" ++ cid]

/-- Whether a gateway response is an HTTP 200 (the only case `get` treats
as success; `response.status_code == 200` in the source). -/
def isHttp200 : GwResponse → Bool
  | GwResponse.http status _ _ _ => decide (status = 200)
  | GwResponse.exc _ => false

namespace FilecoinPinStorageProvider

/-- Mirrors the `for gateway_url in gateways` loop of `get`: try each URL
in order; on HTTP 200 return the body and metadata at once; on any other
status or a raised exception move to the next URL; when the list is
exhausted raise the aggregate error.  Also returns the list of URLs a
request was issued to, in order. -/
def tryGateways (resp : String → GwResponse) :
    List String → Except String (List Nat × RetrMeta) × List String
  | [] => (Except.error "Failed to retrieve from any IPFS gateway", [])
  | url :: rest =>
    match resp url with
    | GwResponse.http status body ct cl =>
      if status = 200 then
        (Except.ok (body, { contentType := ct, contentLength := cl,
                            gateway := url }), [url])
      else
        let r := tryGateways resp rest
        (r.1, url :: r.2)
    | GwResponse.exc _ =>
      let r := tryGateways resp rest
      (r.1, url :: r.2)

/-- Mirrors `get`: strip `ipfs://` (Python `str.replace`, i.e. every
occurrence) to obtain the CID, run the gateway loop, and re-wrap any
escaping exception in the outer `except` handler's message. -/
def get (uri : String) (resp : String → GwResponse) :
    Except String (List Nat × RetrMeta) × List String :=
  let cid := pyReplace uri "ipfs://" ""
  let r := tryGateways resp (gateways cid)
  match r.1 with
  | Except.ok v => (Except.ok v, r.2)
  | Except.error e => (Except.error ("Error retrieving from IPFS: " ++ e), r.2)

end FilecoinPinStorageProvider

/-- Mirrors `verify`: Python `str.replace("ipfs://", "")` on both strings
(which removes every occurrence of the substring, not only a leading
prefix), then string equality. -/
def verify (uri expected_hash : String) : Bool :=
  (pyReplace uri "ipfs://" "") == (pyReplace expected_hash "ipfs://" "")

/-- Mirrors `delete`: always `False`, no effect. -/
def delete (uri : String) : Bool := false

/-- Spec-worded companion for claim C7 only: strip a single leading
`ipfs://` prefix, a no-op when the prefix is absent. -/
def stripLeadingIpfsSpec (s : String) : String :=
  match dropLit "ipfs://".toList s.toList with
  | some rest => String.mk rest
  | none => s

/-- JSON values needed to model the dictionaries `upload_json` receives
(flat objects of strings and integers suffice for the claims). -/
inductive JVal where
  | jstr (s : String)
  | jnum (n : Int)
  deriving DecidableEq, Repr

/-- Serialization of one JSON scalar as `json.dumps` renders it (for
strings, restricted to texts needing no escaping). -/
def dumpsVal : JVal → String
  | JVal.jstr s => "\"" ++ s ++ "\""
  | JVal.jnum n => toString n

/-- Joins a list of strings with a separator (Python `sep.join(items)`). -/
def sepConcat (sep : String) : List String → String
  | [] => ""
  | [x] => x
  | x :: y :: xs => x ++ sep ++ sepConcat sep (y :: xs)

/-- Mirrors `json.dumps(data, indent=2)` on a flat object: keys in the
dict's own (insertion) order, two-space indent, `key: value` items joined
by `,\n`; the braces of the rendered object are `\x7b` and `\x7d`. -/
def json_dumps_indent2 (d : List (String × JVal)) : String :=
  match d with
  | [] => "\x7b\x7d"
  | items =>
    "\x7b\n"
      ++ sepConcat ",\n"
           (items.map (fun p => "  \"" ++ p.1 ++ "\": " ++ dumpsVal p.2))
      ++ "\n\x7d"

/-- Python `s.encode("utf-8")` as a list of byte values. -/
def utf8Encode (s : String) : List Nat :=
  s.toList.flatMap (fun c =>
    let n := c.toNat
    if n < 128 then [n]
    else if n < 2048 then [192 + n / 64, 128 + n % 64]
    else if n < 65536 then
      [224 + n / 4096, 128 + (n / 64) % 64, 128 + n % 64]
    else
      [240 + n / 262144, 128 + (n / 4096) % 64, 128 + (n / 64) % 64,
       128 + n % 64])

/-- Python `filename or "data.json"`: the default replaces `None` and the
empty string. -/
def pyOrDefault (filename : Option String) (dflt : String) : String :=
  if pyTruthy filename then filename.getD "" else dflt

/-- Mirrors `upload_json`: serialize the dict with `json.dumps(..., indent=2)`,
encode as UTF-8, call `put` with MIME `application/json` and a filename
tag, and project the result to `some cid` on success, `none` on failure.
The effects of the inner `put` call are returned for observation. -/
def upload_json_run (cfg : Config) (data : List (String × JVal))
    (filename : Option String) (env : PutEnv) :
    Option String × PutEffects :=
  let json_data := utf8Encode (json_dumps_indent2 data)
  let r := put cfg json_data (some "application/json")
      (some [("filename", pyOrDefault filename "data.json")]) none env
  (if r.1.success then some r.1.cid else none, r.2)

/-- A string with the non-empty literal `Storage error: ` in front is never
empty. -/
theorem storage_error_ne_empty (e : String) : "Storage error: " ++ e ≠ "" := by
  intro h
  have hd := congrArg String.data h
  rw [String.data_append] at hd
  simp at hd

/-- Reference configuration used by concrete witnesses: the constructor
defaults of `FilecoinPinStorageProvider`. -/
def cfg0 : Config :=
  { filecoin_pin_path := "filecoin-pin", auto_fund := true, bare := false,
    verbose := false, private_key := none }

/-- Environment where the subprocess call raises `TimeoutExpired`. -/
def envTimeout : PutEnv :=
  { tempDirPath := "/tmp/chaoschain_filecoin_pin_w1",
    subproc := SubprocBehavior.timesOut }

/-- Environment where the subprocess exits 0 and prints a root CID. -/
def envOk : PutEnv :=
  { tempDirPath := "/tmp/chaoschain_filecoin_pin_w2",
    subproc := SubprocBehavior.completes 0 "Root CID: bafyTest" "" }

/-- Claim C1: every `StorageResult` returned by `put` satisfies the
two-state invariant: `success = true` iff `cid` is non-empty iff `error`
is empty; no result mixes the two states. -/
theorem put_result_two_state_invariant (cfg : Config) (blob : List Nat)
    (mime : Option String) (tags : Option (List (String × String)))
    (key : Option String) (env : PutEnv) :
    ((put cfg blob mime tags key env).1.success = true
        ↔ (put cfg blob mime tags key env).1.cid ≠ "")
    ∧ ((put cfg blob mime tags key env).1.success = true
        ↔ (put cfg blob mime tags key env).1.error = "") := by
  obtain ⟨path, mk, wr, sp⟩ := env
  cases mk with
  | some e =>
    simp [put]
    exact storage_error_ne_empty e
  | none =>
    cases wr with
    | some e =>
      simp [put]
      exact storage_error_ne_empty e
    | none =>
      cases sp with
      | timesOut => simp [put]
      | raises e =>
        simp [put]
        exact storage_error_ne_empty e
      | completes rc stdout stderr =>
        by_cases hrc : rc = 0
        · subst hrc
          by_cases hroot :
              (parse_cli_output stdout).root_cid.getD "" = ""
          · simp [put, hroot]
          · simp [put, hroot]
        · by_cases hs : pyStrip stderr = ""
          · simp [put, hrc, hs]
          · simp [put, hrc, hs]

/-- Claim C1 witness: the invariant instantiated at a concrete timeout
environment. -/
theorem put_result_two_state_invariant_witness :
    ((put cfg0 [] none none none envTimeout).1.success = true
        ↔ (put cfg0 [] none none none envTimeout).1.cid ≠ "")
    ∧ ((put cfg0 [] none none none envTimeout).1.success = true
        ↔ (put cfg0 [] none none none envTimeout).1.error = "") :=
  put_result_two_state_invariant cfg0 [] none none none envTimeout

/-- Claim C10: the `idempotency_key` argument has no influence on anything
`put` does — neither on the returned `StorageResult` nor on any observable
effect (payload file written, command executed, temp-dir lifecycle). -/
theorem put_ignores_idempotency_key (cfg : Config) (blob : List Nat)
    (mime : Option String) (tags : Option (List (String × String)))
    (k1 k2 : Option String) (env : PutEnv) :
    put cfg blob mime tags k1 env = put cfg blob mime tags k2 env := rfl

/-- Claim C9 counterexample: on a failure result (non-zero exit code) the
`size` field is the dataclass default `0`, not the length of the original
one-byte payload. -/
theorem put_failure_size_zero_cex :
    (put cfg0 [7] none none none
        { tempDirPath := "/tmp/chaoschain_filecoin_pin_w3",
          subproc := SubprocBehavior.completes 1 "" "boom" }).1.size
      ≠ ([7] : List Nat).length := by decide

/-- Claim C9 amended: the `size` field of the `StorageResult` returned by
`put` equals the payload's byte length on success results and `0` on
failure results. -/
theorem put_size_success_only (cfg : Config) (blob : List Nat)
    (mime : Option String) (tags : Option (List (String × String)))
    (key : Option String) (env : PutEnv) :
    (put cfg blob mime tags key env).1.size
      = if (put cfg blob mime tags key env).1.success then blob.length
        else 0 := by
  obtain ⟨path, mk, wr, sp⟩ := env
  cases mk with
  | some e => simp [put]
  | none =>
    cases wr with
    | some e => simp [put]
    | none =>
      cases sp with
      | timesOut => simp [put]
      | raises e => simp [put]
      | completes rc stdout stderr =>
        by_cases hrc : rc = 0
        · subst hrc
          by_cases hroot :
              (parse_cli_output stdout).root_cid.getD "" = ""
          · simp [put, hroot]
          · simp [put, hroot]
        · simp [put, hrc]

/-- Claim C4: evaluation at the failing input.  When `Path.write_bytes`
raises (the statement sits before the `try`/`finally` that removes the
directory), `put` still returns a failure result but the temporary
directory it created is not removed. -/
theorem put_write_exception_leaks_tempdir :
    ((put cfg0 [1, 2, 3] none none none
        { tempDirPath := "/tmp/chaoschain_filecoin_pin_w4",
          writeError := some "No space left on device",
          subproc := SubprocBehavior.completes 0 "" "" }).2.tempDirCreated
        = true)
    ∧ ((put cfg0 [1, 2, 3] none none none
        { tempDirPath := "/tmp/chaoschain_filecoin_pin_w4",
          writeError := some "No space left on device",
          subproc := SubprocBehavior.completes 0 "" "" }).2.tempDirExistsAfter
        = true)
    ∧ ((put cfg0 [1, 2, 3] none none none
        { tempDirPath := "/tmp/chaoschain_filecoin_pin_w4",
          writeError := some "No space left on device",
          subproc := SubprocBehavior.completes 0 "" "" }).1.success
        = false) := by decide

/-- Claim C2: for every payload, MIME type, tag mapping and idempotency
key, and for every failing behaviour of the environment — an exception
while creating the temp dir or writing the payload, a subprocess timeout,
a subprocess-level exception, a non-zero exit code, or a zero exit code
whose output carries no usable root CID — `put` returns a `StorageResult`
with `success = false` instead of letting the failure escape. -/
theorem put_failure_paths_return_false (cfg : Config) (blob : List Nat)
    (mime : Option String) (tags : Option (List (String × String)))
    (key : Option String) (env : PutEnv)
    (h : env.mkdtempError ≠ none ∨ env.writeError ≠ none ∨
         env.subproc = SubprocBehavior.timesOut ∨
         (∃ m, env.subproc = SubprocBehavior.raises m) ∨
         (∃ rc o e, env.subproc = SubprocBehavior.completes rc o e ∧ rc ≠ 0) ∨
         (∃ o e, env.subproc = SubprocBehavior.completes 0 o e ∧
            (parse_cli_output o).root_cid.getD "" = "")) :
    (put cfg blob mime tags key env).1.success = false := by
  obtain ⟨path, mk, wr, sp⟩ := env
  cases mk with
  | some e => simp [put]
  | none =>
    cases wr with
    | some e => simp [put]
    | none =>
      cases sp with
      | timesOut => simp [put]
      | raises e => simp [put]
      | completes rc stdout stderr =>
        by_cases hrc : rc = 0
        · subst hrc
          rcases h with hmk | hwr | hsp | ⟨m, hsp⟩ | ⟨rc2, o, e, hsp, hrc2⟩
              | ⟨o, e, hsp, hroot⟩
          · exact absurd rfl hmk
          · exact absurd rfl hwr
          · exact SubprocBehavior.noConfusion hsp
          · exact SubprocBehavior.noConfusion hsp
          · injection hsp with h1 h2 h3
            exact absurd h1.symm hrc2
          · injection hsp with h1 h2 h3
            subst h2
            simp [put, hroot]
        · simp [put, hrc]

/-- Claim C2 witness: a subprocess timeout resolves to `success = false`. -/
theorem put_failure_paths_return_false_witness :
    (put cfg0 [1] none none none envTimeout).1.success = false :=
  put_failure_paths_return_false cfg0 [1] none none none envTimeout
    (Or.inr (Or.inr (Or.inl rfl)))

/-- The line handler leaves `root_cid` untouched on a line that does not
contain the `Root CID:` label. -/
theorem updateLine_root_cid_of_no_label (st : ParsedOutput) (line : String)
    (h : splitAfter "Root CID:" line = none) :
    (updateLine st line).root_cid = st.root_cid := by
  unfold updateLine
  rw [h]
  cases splitAfter "Piece CID:" line with
  | some v => rfl
  | none =>
    cases splitAfter "Data Set ID:" line with
    | some v => rfl
    | none =>
      by_cases h4 : pyStartsWith (pyStrip line) "â”‚ Hash:" = true
      · simp [h4]
      · simp [h4]
        by_cases h5 : pyIn "IPFS content loaded (" line = true
        · simp [h5]
          cases hres : reSearchLoaded line.data with
          | some v => rfl
          | none => rfl
        · simp [h5]

/-- Folding the line handler over label-free lines never sets `root_cid`. -/
theorem foldl_updateLine_root_cid_none (lines : List String)
    (h : ∀ l ∈ lines, splitAfter "Root CID:" l = none) :
    ∀ st : ParsedOutput,
      (lines.foldl updateLine st).root_cid = st.root_cid := by
  induction lines with
  | nil => intro st; rfl
  | cons l ls ih =>
    intro st
    rw [List.foldl_cons]
    rw [ih (fun x hx => h x (List.mem_cons_of_mem l hx))]
    exact updateLine_root_cid_of_no_label st l (h l (List.mem_cons_self l ls))

/-- Claim C5: if the subprocess exits 0 but its standard output has no
`Root CID:` line, `put` fails with the dedicated error message, an empty
`cid`, and `success = false`; a zero exit code alone never yields
success. -/
theorem put_zero_exit_without_cid_fails (cfg : Config) (blob : List Nat)
    (mime : Option String) (tags : Option (List (String × String)))
    (key : Option String) (env : PutEnv) (stdout stderr : String)
    (hmk : env.mkdtempError = none) (hwr : env.writeError = none)
    (hsp : env.subproc = SubprocBehavior.completes 0 stdout stderr)
    (hno : ∀ l ∈ pySplitOn stdout "\n", splitAfter "Root CID:" l = none) :
    (put cfg blob mime tags key env).1.success = false
    ∧ (put cfg blob mime tags key env).1.cid = ""
    ∧ (put cfg blob mime tags key env).1.error
        = "filecoin-pin completed without returning a Root CID" := by
  have hroot : (parse_cli_output stdout).root_cid = none :=
    foldl_updateLine_root_cid_none (pySplitOn stdout "\n") hno {}
  obtain ⟨path, mk, wr, sp⟩ := env
  simp at hmk hwr hsp
  subst hmk
  subst hwr
  subst hsp
  simp [put, hroot]

/-- Claim C5 witness: a zero-exit run whose output is chatter without a
`Root CID:` line resolves to the dedicated failure result. -/
theorem put_zero_exit_without_cid_fails_witness :
    (put cfg0 [1] none none none
        { tempDirPath := "/tmp/chaoschain_filecoin_pin_w5",
          subproc := SubprocBehavior.completes 0 "all done\nbye" "" }).1.success
        = false
    ∧ (put cfg0 [1] none none none
        { tempDirPath := "/tmp/chaoschain_filecoin_pin_w5",
          subproc := SubprocBehavior.completes 0 "all done\nbye" "" }).1.cid
        = ""
    ∧ (put cfg0 [1] none none none
        { tempDirPath := "/tmp/chaoschain_filecoin_pin_w5",
          subproc := SubprocBehavior.completes 0 "all done\nbye" "" }).1.error
        = "filecoin-pin completed without returning a Root CID" :=
  put_zero_exit_without_cid_fails cfg0 [1] none none none
    { tempDirPath := "/tmp/chaoschain_filecoin_pin_w5",
      subproc := SubprocBehavior.completes 0 "all done\nbye" "" }
    "all done\nbye" "" rfl rfl rfl (by decide)

/-- A gateway whose response is not HTTP 200 makes the loop move on: the
result is that of the remaining list, with the failing URL recorded. -/
theorem tryGateways_cons_fail (resp : String → GwResponse) (url : String)
    (rest : List String) (h : isHttp200 (resp url) = false) :
    FilecoinPinStorageProvider.tryGateways resp (url :: rest)
      = ((FilecoinPinStorageProvider.tryGateways resp rest).1,
         url :: (FilecoinPinStorageProvider.tryGateways resp rest).2) := by
  cases hr : resp url with
  | http status body ct cl =>
    by_cases h200 : status = 200
    · subst h200
      rw [hr] at h
      simp [isHttp200] at h
    · conv_lhs => rw [FilecoinPinStorageProvider.tryGateways]
      rw [hr]
      simp [h200]
  | exc msg =>
    conv_lhs => rw [FilecoinPinStorageProvider.tryGateways]
    rw [hr]

/-- Walking past a block of failing gateways, the loop returns the first
HTTP 200 response it meets, issuing requests exactly to the failing block
and the answering URL. -/
theorem tryGateways_first_200 (resp : String → GwResponse)
    (pre : List String) (hpre : ∀ u ∈ pre, isHttp200 (resp u) = false)
    (g : String) (post : List String) (body : List Nat)
    (ct cl : Option String) (hg : resp g = GwResponse.http 200 body ct cl) :
    FilecoinPinStorageProvider.tryGateways resp (pre ++ g :: post)
      = (Except.ok (body, { contentType := ct, contentLength := cl,
                            gateway := g }), pre ++ [g]) := by
  induction pre with
  | nil =>
    simp only [List.nil_append]
    conv_lhs => rw [FilecoinPinStorageProvider.tryGateways]
    rw [hg]
    simp
  | cons u us ih =>
    have hu : isHttp200 (resp u) = false := hpre u (List.mem_cons_self u us)
    have hus : ∀ x ∈ us, isHttp200 (resp x) = false :=
      fun x hx => hpre x (List.mem_cons_of_mem u hx)
    rw [List.cons_append, tryGateways_cons_fail resp u (us ++ g :: post) hu,
        ih hus]
    rfl

/-- Claim C3: whenever the configured gateway list splits into a block of
failing gateways followed by the first gateway answering HTTP 200, `get`
returns that gateway's body together with its content-type,
content-length and URL, and the requests issued are exactly the failing
block followed by the answering gateway — nothing after it. -/
theorem get_returns_first_200 (uri : String) (resp : String → GwResponse)
    (pre post : List String) (g : String) (body : List Nat)
    (ct cl : Option String)
    (hsplit : gateways (pyReplace uri "ipfs://" "") = pre ++ g :: post)
    (hpre : ∀ u ∈ pre, isHttp200 (resp u) = false)
    (hg : resp g = GwResponse.http 200 body ct cl) :
    FilecoinPinStorageProvider.get uri resp
      = (Except.ok (body, { contentType := ct, contentLength := cl,
                            gateway := g }), pre ++ [g]) := by
  simp only [FilecoinPinStorageProvider.get]
  rw [hsplit, tryGateways_first_200 resp pre hpre g post body ct cl hg]

/-- Gateway oracle for the C3 witness: the first configured gateway
answers HTTP 500, the second answers HTTP 200 with body `[66]`, and the
remaining two are never consulted. -/
def respW : String → GwResponse := fun u =>
  if u = "https://gateway.pinata.cloud/ipfs/QmX" then
    GwResponse.http 200 [66] (some "text/plain") (some "1")
  else GwResponse.http 500 [] none none

/-- Claim C3 witness: with the first gateway failing and the second
succeeding, `get` returns the second gateway's answer and issues requests
only to the first two configured gateways. -/
theorem get_returns_first_200_witness :
    FilecoinPinStorageProvider.get "ipfs://QmX" respW
      = (Except.ok ([66],
          { contentType := some "text/plain", contentLength := some "1",
            gateway := "https://gateway.pinata.cloud/ipfs/QmX" }),
         ["https://ipfs.io/ipfs/QmX",
          "https://gateway.pinata.cloud/ipfs/QmX"]) :=
  get_returns_first_200 "ipfs://QmX" respW
    ["https://ipfs.io/ipfs/QmX"]
    ["https://cloudflare-ipfs.com/ipfs/QmX", "https://dweb.link/ipfs/QmX"]
    "https://gateway.pinata.cloud/ipfs/QmX" [66]
    (some "text/plain") (some "1") (by decide) (by decide) (by decide)

/-- The gateway loop raises only one error text: the aggregate
exhaustion message. -/
theorem tryGateways_error_unique (resp : String → GwResponse) :
    ∀ (l : List String) (e : String),
      (FilecoinPinStorageProvider.tryGateways resp l).1 = Except.error e →
      e = "Failed to retrieve from any IPFS gateway" := by
  intro l
  induction l with
  | nil =>
    intro e h
    simp [FilecoinPinStorageProvider.tryGateways] at h
    exact h.symm
  | cons url rest ih =>
    intro e h
    cases hr : resp url with
    | http status body ct cl =>
      by_cases hs : status = 200
      · subst hs
        have heq : FilecoinPinStorageProvider.tryGateways resp (url :: rest)
            = (Except.ok (body, { contentType := ct, contentLength := cl,
                                  gateway := url }), [url]) := by
          conv_lhs => rw [FilecoinPinStorageProvider.tryGateways]
          rw [hr]
          simp
        rw [heq] at h
        exact absurd h (by simp)
      · have hfail : isHttp200 (resp url) = false := by
          simp [isHttp200, hr, hs]
        rw [tryGateways_cons_fail resp url rest hfail] at h
        exact ih e h
    | exc m =>
      have hfail : isHttp200 (resp url) = false := by simp [isHttp200, hr]
      rw [tryGateways_cons_fail resp url rest hfail] at h
      exact ih e h

/-- The gateway loop ends in the aggregate error exactly when every URL in
the list fails (non-200 status or raised exception). -/
theorem tryGateways_error_iff (resp : String → GwResponse) :
    ∀ l : List String,
      ((FilecoinPinStorageProvider.tryGateways resp l).1
        = Except.error "Failed to retrieve from any IPFS gateway")
      ↔ ∀ u ∈ l, isHttp200 (resp u) = false := by
  intro l
  induction l with
  | nil => simp [FilecoinPinStorageProvider.tryGateways]
  | cons url rest ih =>
    cases hr : resp url with
    | http status body ct cl =>
      by_cases hs : status = 200
      · subst hs
        have heq : FilecoinPinStorageProvider.tryGateways resp (url :: rest)
            = (Except.ok (body, { contentType := ct, contentLength := cl,
                                  gateway := url }), [url]) := by
          conv_lhs => rw [FilecoinPinStorageProvider.tryGateways]
          rw [hr]
          simp
        rw [heq]
        simp [List.forall_mem_cons, isHttp200, hr]
      · have hfail : isHttp200 (resp url) = false := by
          simp [isHttp200, hr, hs]
        rw [tryGateways_cons_fail resp url rest hfail]
        simp [List.forall_mem_cons, hfail, ih]
    | exc m =>
      have hfail : isHttp200 (resp url) = false := by simp [isHttp200, hr]
      rw [tryGateways_cons_fail resp url rest hfail]
      simp [List.forall_mem_cons, hfail, ih]

/-- Claim C6: `get` resolves to the aggregate error exactly when every
configured gateway fails (non-200 status or a transport-level exception);
when the list is exhausted without a 200 response the result is that
error, never a value. -/
theorem get_aggregate_error_iff (uri : String) (resp : String → GwResponse) :
    ((FilecoinPinStorageProvider.get uri resp).1
      = Except.error
          "Error retrieving from IPFS: Failed to retrieve from any IPFS gateway")
    ↔ ∀ u ∈ gateways (pyReplace uri "ipfs://" ""),
        isHttp200 (resp u) = false := by
  simp only [FilecoinPinStorageProvider.get]
  cases hres : (FilecoinPinStorageProvider.tryGateways resp
      (gateways (pyReplace uri "ipfs://" ""))).1 with
  | ok v =>
    constructor
    · intro h
      simp at h
    · intro hR
      have hcontra :=
        (tryGateways_error_iff resp
          (gateways (pyReplace uri "ipfs://" ""))).mpr hR
      rw [hres] at hcontra
      exact Except.noConfusion hcontra
  | error e =>
    have he := tryGateways_error_unique resp
      (gateways (pyReplace uri "ipfs://" "")) e hres
    subst he
    have hall := (tryGateways_error_iff resp
      (gateways (pyReplace uri "ipfs://" ""))).mp hres
    constructor
    · intro h2
      exact hall
    · intro h2
      rfl

/-- Gateway oracle for the C6 witness: every URL raises a transport
error. -/
def respAllFail : String → GwResponse := fun _ =>
  GwResponse.exc "connection refused"

/-- Claim C6 witness: with every gateway failing, `get` resolves to the
aggregate error at a concrete URI. -/
theorem get_aggregate_error_iff_witness :
    (FilecoinPinStorageProvider.get "ipfs://QmY" respAllFail).1
      = Except.error
          "Error retrieving from IPFS: Failed to retrieve from any IPFS gateway" := by
  apply (get_aggregate_error_iff "ipfs://QmY" respAllFail).mpr
  decide

/-- Claim C7 counterexample: `verify` uses Python `str.replace`, which
removes every occurrence of `ipfs://`, not only a leading prefix; at
`uri = "ipfs://ipfs://x"`, `expectedHash = "x"` it answers `true` although
the two strings differ after leading-prefix stripping. -/
theorem verify_leading_prefix_cex :
    verify "ipfs://ipfs://x" "x" = true
    ∧ stripLeadingIpfsSpec "ipfs://ipfs://x" ≠ stripLeadingIpfsSpec "x" := by
  decide

/-- Claim C7 amended: `verify uri expectedHash` is `true` exactly when the
two strings agree after removing every occurrence of `ipfs://` from each
(a no-op when the substring is absent); the spec's three concrete examples
hold. -/
theorem verify_replace_all_characterization (uri eh : String) :
    (verify uri eh = true
      ↔ pyReplace uri "ipfs://" "" = pyReplace eh "ipfs://" "")
    ∧ verify "ipfs://abc" "ipfs://abc" = true
    ∧ verify "ipfs://abc" "abc" = true
    ∧ verify "abc" "ipfs://xyz" = false := by
  refine ⟨?_, by decide, by decide, by decide⟩
  unfold verify
  exact beq_iff_eq

/-- Environment for the C8 counterexample: the subprocess succeeds with a
root CID, so the temp-file write is reached and observable. -/
def envJson : PutEnv :=
  { tempDirPath := "/tmp/chaoschain_filecoin_pin_w6",
    subproc := SubprocBehavior.completes 0 "Root CID: bafyJson" "" }

/-- Claim C8 counterexample: two dictionaries with the same key-value
content but different insertion order (`json.dumps` is called without
`sort_keys`) serialize to different bytes, observable as different payload
files written by the `put` call inside `upload_json`. -/
theorem upload_json_key_order_cex :
    ([("a", JVal.jnum 1), ("b", JVal.jnum 2)] : List (String × JVal)).Perm
        [("b", JVal.jnum 2), ("a", JVal.jnum 1)]
    ∧ (upload_json_run cfg0 [("a", JVal.jnum 1), ("b", JVal.jnum 2)] none
          envJson).2.fileWritten
      ≠ (upload_json_run cfg0 [("b", JVal.jnum 2), ("a", JVal.jnum 1)] none
          envJson).2.fileWritten := by
  constructor
  · exact List.Perm.swap ("b", JVal.jnum 2) ("a", JVal.jnum 1) []
  · decide

/-- Claim C8 amended: `upload_json` serializes the dictionary in its own
key order with `json.dumps(..., indent=2)`, uploads the UTF-8 bytes via
`put` with MIME `application/json` and a filename tag, and returns exactly
the CID on success and `None` on any failure. -/
theorem upload_json_projection (cfg : Config) (data : List (String × JVal))
    (filename : Option String) (env : PutEnv) :
    ((upload_json_run cfg data filename env).1
      = (if (put cfg (utf8Encode (json_dumps_indent2 data))
              (some "application/json")
              (some [("filename", pyOrDefault filename "data.json")]) none
              env).1.success
         then some (put cfg (utf8Encode (json_dumps_indent2 data))
              (some "application/json")
              (some [("filename", pyOrDefault filename "data.json")]) none
              env).1.cid
         else none))
    ∧ ((upload_json_run cfg data filename env).1.isSome
        ↔ (put cfg (utf8Encode (json_dumps_indent2 data))
            (some "application/json")
            (some [("filename", pyOrDefault filename "data.json")]) none
            env).1.success = true) := by
  constructor
  · rfl
  · cases hs : (put cfg (utf8Encode (json_dumps_indent2 data))
        (some "application/json")
        (some [("filename", pyOrDefault filename "data.json")]) none
        env).1.success <;> simp [upload_json_run, hs]
